import Mathlib

/-!
# Verification of the monitoring-tool alert pipeline

Shallow embedding of the alert pipeline of the `monitoring-tool` repository:
the alert data model (`internal/models/alert.go`), the rule evaluator and
alert builders (`internal/collector`), the worker pool (`internal/pool`),
the state manager and event bus (`internal/processor`), the alert
repositories (`internal/repository/alert.go`), and the email dispatcher
(`internal/notifier/email.go`).

Modelling conventions:
* Go machine integers (`int`, `int32`, `int64`) are modelled as `Int`
  (counts that are non-negative by construction as `Nat`); overflow is not
  reachable at the magnitudes involved.
* Go `float64` measurements and thresholds are modelled as `Rat`; the code
  only compares and copies them, so no floating-point rounding is involved.
* Instants are abstract integers (seconds); `time.Now()` is threaded as an
  explicit `now` parameter.
* A Go runtime panic (close of a closed channel, slice index out of range)
  is modelled by an `Option` result, `none` meaning the call panics.
* Alert `id` (a fresh uuid), `message` (human-readable text) and the
  bookkeeping timestamps `created_at`/`updated_at`/`resolved_at` are not
  carried by the embedded `Alert`: no property below depends on them, and
  the claims under verification compare alerts "ids aside".
-/

/-- Severity constants, from `internal/collector/constants.go`. -/
def SeverityCritical : String := "critical"

/-- Severity constant `high`. -/
def SeverityHigh : String := "high"

/-- Severity constant `medium`. -/
def SeverityMedium : String := "medium"

/-- Severity constant `low`. -/
def SeverityLow : String := "low"

/-- The alert-type enumeration of `internal/collector` (`AlertType`, a Go
string type with fifteen constants). -/
inductive AlertType where
  | podFailed | podOOMKilled | podCrashLoop | podRestartThreshold
  | podImagePull | podPending | podUnknown
  | nodeNotReady | nodeMemoryPressure | nodeDiskPressure | nodePIDPressure
  | podCPUHigh | podMemoryHigh | nodeCPUHigh | nodeMemoryHigh
deriving DecidableEq, Repr

/-- The Go string value of each `AlertType` constant. -/
def AlertType.str : AlertType → String
  | .podFailed => "pod_failed"
  | .podOOMKilled => "pod_oom_killed"
  | .podCrashLoop => "pod_crash_loop"
  | .podRestartThreshold => "pod_restart_threshold"
  | .podImagePull => "pod_image_pull"
  | .podPending => "pod_pending"
  | .podUnknown => "pod_unknown"
  | .nodeNotReady => "node_not_ready"
  | .nodeMemoryPressure => "node_memory_pressure"
  | .nodeDiskPressure => "node_disk_pressure"
  | .nodePIDPressure => "node_pid_pressure"
  | .podCPUHigh => "pod_cpu_high"
  | .podMemoryHigh => "pod_memory_high"
  | .nodeCPUHigh => "node_cpu_high"
  | .nodeMemoryHigh => "node_memory_high"

/-- The persisted alert entity, from `internal/models/alert.go` (`Alert`).
Labels are the content of the Go `map[string]string` as a key/value list
(keys unique in every use below). -/
structure Alert where
  status : String
  severity : String
  source : String
  labels : List (String × String)
  value : Rat
  triggeredAt : Int
deriving DecidableEq, Repr

/-- `models.NewAlert`: a fresh alert is `firing` and triggered now.
`time.Now()` is the explicit `now` argument. -/
def NewAlert (severity source : String) (value : Rat)
    (labels : List (String × String)) (now : Int) : Alert :=
  { status := "firing", severity := severity, source := source
    labels := labels, value := value, triggeredAt := now }

/-- Go map assignment `labels[k] = v`: replace the binding if the key is
present, otherwise add it. -/
def setLabel (labels : List (String × String)) (k v : String) :
    List (String × String) :=
  if labels.any (fun p => p.1 == k) then
    labels.map (fun p => if p.1 == k then (k, v) else p)
  else labels ++ [(k, v)]

/-- `corev1.ContainerStateWaiting` (reason and message fields). -/
structure ContainerStateWaiting where
  reason : String
  message : String
deriving DecidableEq, Repr

/-- `corev1.ContainerStateTerminated` (reason field). -/
structure ContainerStateTerminated where
  reason : String
deriving DecidableEq, Repr

/-- `corev1.ContainerStatus`: name, restart count (a non-negative `int32`
counter), the current waiting state (`State.Waiting`, nil-able) and the
last termination state (`LastTerminationState.Terminated`, nil-able). -/
structure ContainerStatus where
  name : String
  restartCount : Nat
  waiting : Option ContainerStateWaiting
  lastTerminated : Option ContainerStateTerminated
deriving DecidableEq, Repr

/-- `corev1.Pod`, restricted to the fields the pipeline reads: metadata
(namespace `ns`, name, creation timestamp) and status (phase, reason,
message, container statuses). -/
structure Pod where
  ns : String
  name : String
  phase : String
  statusReason : String
  statusMessage : String
  containerStatuses : List ContainerStatus
  creationTimestamp : Int
deriving DecidableEq, Repr

/-- `corev1.NodeCondition` (type, status, reason). -/
structure NodeCondition where
  condType : String
  status : String
  reason : String
deriving DecidableEq, Repr

/-- `corev1.Node`, restricted to name and status conditions. -/
structure Node where
  name : String
  conditions : List NodeCondition
deriving DecidableEq, Repr

/-- `collector.getOOMKilledContainer`: name of the first container whose
last termination reason is `OOMKilled`, else `"unknown"`. -/
def getOOMKilledContainer (pod : Pod) : String :=
  match pod.containerStatuses.find?
      (fun cs => match cs.lastTerminated with
        | some t => t.reason == "OOMKilled"
        | none => false) with
  | some cs => cs.name
  | none => "unknown"

/-- `collector.getCrashLoopContainer`: name and waiting message of the
first container waiting with reason `CrashLoopBackOff`. -/
def getCrashLoopContainer (pod : Pod) : String × String :=
  match pod.containerStatuses.find?
      (fun cs => match cs.waiting with
        | some w => w.reason == "CrashLoopBackOff"
        | none => false) with
  | some cs => (cs.name, (cs.waiting.map (fun w => w.message)).getD "unknown")
  | none => ("unknown", "unknown")

/-- `collector.getImagePullError`: name and waiting message of the first
container waiting with reason `ImagePullBackOff` or `ErrImagePull`. -/
def getImagePullError (pod : Pod) : String × String :=
  match pod.containerStatuses.find?
      (fun cs => match cs.waiting with
        | some w => w.reason == "ImagePullBackOff" || w.reason == "ErrImagePull"
        | none => false) with
  | some cs => (cs.name, (cs.waiting.map (fun w => w.message)).getD "unknown")
  | none => ("unknown", "unknown")

/-- `collector.getHighestRestartContainer`: fold over the container
statuses keeping the first container whose restart count strictly exceeds
the running maximum (initial maximum 0, initial name `"unknown"`). -/
def getHighestRestartContainer (pod : Pod) : String :=
  (pod.containerStatuses.foldl
    (fun acc cs =>
      if acc.1 < cs.restartCount then (cs.restartCount, cs.name) else acc)
    ((0 : Nat), "unknown")).2

/-- `collector.BuildPodAlert`: severity and labels per alert type (the
human-readable message is not modelled). -/
def BuildPodAlert (pod : Pod) (alertType : AlertType) (value : Rat)
    (now : Int) : Alert :=
  let labels := [("namespace", pod.ns), ("pod", pod.name),
                 ("alert_type", alertType.str)]
  match alertType with
  | .podFailed => NewAlert SeverityCritical "k8s_pod" value labels now
  | .podOOMKilled =>
      NewAlert SeverityCritical "k8s_pod" value
        (setLabel labels "container" (getOOMKilledContainer pod)) now
  | .podCrashLoop =>
      let cr := getCrashLoopContainer pod
      NewAlert SeverityHigh "k8s_pod" value
        (setLabel (setLabel labels "container" cr.1) "reason" cr.2) now
  | .podRestartThreshold =>
      NewAlert SeverityHigh "k8s_pod" value
        (setLabel labels "container" (getHighestRestartContainer pod)) now
  | .podImagePull =>
      NewAlert SeverityHigh "k8s_pod" value
        (setLabel labels "container" (getImagePullError pod).1) now
  | .podPending => NewAlert SeverityMedium "k8s_pod" value labels now
  | .podUnknown => NewAlert SeverityCritical "k8s_pod" value labels now
  | _ => NewAlert SeverityMedium "k8s_pod" value labels now

/-- `collector.BuildNodeAlert`: severity and labels per alert type. -/
def BuildNodeAlert (node : Node) (alertType : AlertType) (value : Rat)
    (now : Int) : Alert :=
  let labels := [("node", node.name), ("alert_type", alertType.str)]
  match alertType with
  | .nodeNotReady => NewAlert SeverityCritical "k8s_node" value labels now
  | .nodeMemoryPressure => NewAlert SeverityHigh "k8s_node" value labels now
  | .nodeDiskPressure => NewAlert SeverityHigh "k8s_node" value labels now
  | .nodePIDPressure => NewAlert SeverityMedium "k8s_node" value labels now
  | _ => NewAlert SeverityMedium "k8s_node" value labels now

/-- `collector.BuildPodMetricAlert`: the label map starts with an empty
`metric` entry which the cpu/memory cases overwrite. -/
def BuildPodMetricAlert (ns podName : String) (alertType : AlertType)
    (value threshold : Rat) (now : Int) : Alert :=
  let labels := [("namespace", ns), ("pod", podName),
                 ("alert_type", alertType.str), ("metric", "")]
  match alertType with
  | .podCPUHigh =>
      NewAlert SeverityHigh "k8s_pod_metrics" value
        (setLabel labels "metric" "cpu") now
  | .podMemoryHigh =>
      NewAlert SeverityHigh "k8s_pod_metrics" value
        (setLabel labels "metric" "memory") now
  | _ => NewAlert SeverityMedium "k8s_pod_metrics" value labels now

/-- `collector.BuildNodeMetricAlert`. -/
def BuildNodeMetricAlert (nodeName : String) (alertType : AlertType)
    (value threshold : Rat) (now : Int) : Alert :=
  let labels := [("node", nodeName), ("alert_type", alertType.str),
                 ("metric", "")]
  match alertType with
  | .nodeCPUHigh =>
      NewAlert SeverityCritical "k8s_node_metrics" value
        (setLabel labels "metric" "cpu") now
  | .nodeMemoryHigh =>
      NewAlert SeverityCritical "k8s_node_metrics" value
        (setLabel labels "metric" "memory") now
  | _ => NewAlert SeverityMedium "k8s_node_metrics" value labels now

/-- The hard-coded pending grace of `PodWatcher` (`pendingTimeout`,
`5 * time.Minute`), in seconds. -/
def podPendingTimeoutSeconds : Int := 300

/-- Sum of the container restart counts accumulated by
`PodWatcher.evaluatePodConditions` (`totalRestarts`). -/
def totalRestarts (pod : Pod) : Nat :=
  pod.containerStatuses.foldl (fun acc cs => acc + cs.restartCount) 0

/-- Whether a container status triggers the OOMKilled check of
`evaluatePodConditions`. -/
def csOOMKilled (cs : ContainerStatus) : Bool :=
  match cs.lastTerminated with
  | some t => t.reason == "OOMKilled"
  | none => false

/-- Whether a container status triggers the CrashLoopBackOff check. -/
def csCrashLoop (cs : ContainerStatus) : Bool :=
  match cs.waiting with
  | some w => w.reason == "CrashLoopBackOff"
  | none => false

/-- Whether a container status triggers the image-pull check. -/
def csImagePull (cs : ContainerStatus) : Bool :=
  match cs.waiting with
  | some w => w.reason == "ImagePullBackOff" || w.reason == "ErrImagePull"
  | none => false

/-- `PodWatcher.evaluatePodConditions`: phase checks, the per-container
loop (OOMKilled, CrashLoopBackOff, image-pull, in source order), the
restart-threshold check against the configured `restartThreshold`
(`int32`, modelled as `Int`), and the pending-grace check
(`time.Since(creationTimestamp) > pendingTimeout`). -/
def evaluatePodConditions (restartThreshold : Int) (now : Int) (pod : Pod) :
    List Alert :=
  (if pod.phase == "Failed" then [BuildPodAlert pod .podFailed 1 now] else [])
  ++ (if pod.phase == "Unknown" then [BuildPodAlert pod .podUnknown 1 now] else [])
  ++ pod.containerStatuses.flatMap (fun cs =>
      (if csOOMKilled cs then
        [BuildPodAlert pod .podOOMKilled (cs.restartCount : Rat) now] else [])
      ++ (if csCrashLoop cs then
        [BuildPodAlert pod .podCrashLoop (cs.restartCount : Rat) now] else [])
      ++ (if csImagePull cs then
        [BuildPodAlert pod .podImagePull 1 now] else []))
  ++ (if restartThreshold < (totalRestarts pod : Int) then
        [BuildPodAlert pod .podRestartThreshold (totalRestarts pod : Rat) now]
      else [])
  ++ (if pod.phase == "Pending" ∧ podPendingTimeoutSeconds < now - pod.creationTimestamp then
        [BuildPodAlert pod .podPending 1 now]
      else [])

/-- `collector.PodMetrics` (per-pod usage snapshot with precomputed
percentages; `int64` quantities as `Int`, `float64` percentages as `Rat`). -/
structure PodMetrics where
  ns : String
  podName : String
  cpuUsageMillicores : Int
  cpuUsagePercent : Rat
  memoryUsageBytes : Int
  memoryUsagePercent : Rat
  cpuRequestMillis : Int
  memoryRequestBytes : Int
deriving DecidableEq, Repr

/-- `collector.NodeMetrics`. -/
structure NodeMetrics where
  nodeName : String
  cpuUsageMillicores : Int
  cpuUsagePercent : Rat
  memoryUsageBytes : Int
  memoryUsagePercent : Rat
  cpuCapacityMillis : Int
  memoryCapacityBytes : Int
deriving DecidableEq, Repr

/-- `config.AlertRulesConfig`, restricted to the thresholds the evaluator
reads (computed percent thresholds as `Rat`). -/
structure AlertRulesConfig where
  podRestartThreshold : Int
  podCPUPercent : Rat
  podMemoryPercent : Rat
  nodeCPUPercent : Rat
  nodeMemoryPercent : Rat
deriving DecidableEq, Repr

/-- The alert production of one iteration of the snapshot loop in
`MetricsWatcher.checkPodMetrics`: skip when neither request is defined,
else compare each percentage against its threshold (the forwarding of each
alert to the state manager is modelled separately by `ProcessAlert`). -/
def checkPodMetricsAlerts (thresholds : AlertRulesConfig) (m : PodMetrics)
    (now : Int) : List Alert :=
  if m.cpuRequestMillis == 0 && m.memoryRequestBytes == 0 then []
  else
    (if 0 < m.cpuRequestMillis ∧ thresholds.podCPUPercent < m.cpuUsagePercent then
      [BuildPodMetricAlert m.ns m.podName .podCPUHigh m.cpuUsagePercent
        thresholds.podCPUPercent now]
    else [])
    ++ (if 0 < m.memoryRequestBytes ∧ thresholds.podMemoryPercent < m.memoryUsagePercent then
      [BuildPodMetricAlert m.ns m.podName .podMemoryHigh m.memoryUsagePercent
        thresholds.podMemoryPercent now]
    else [])

/-- The alert production of one iteration of the snapshot loop in
`MetricsWatcher.checkNodeMetrics`. -/
def checkNodeMetricsAlerts (thresholds : AlertRulesConfig) (m : NodeMetrics)
    (now : Int) : List Alert :=
  (if thresholds.nodeCPUPercent < m.cpuUsagePercent then
    [BuildNodeMetricAlert m.nodeName .nodeCPUHigh m.cpuUsagePercent
      thresholds.nodeCPUPercent now]
  else [])
  ++ (if thresholds.nodeMemoryPercent < m.memoryUsagePercent then
    [BuildNodeMetricAlert m.nodeName .nodeMemoryHigh m.memoryUsagePercent
      thresholds.nodeMemoryPercent now]
  else [])

/-- An alert event on the bus (`processor.AlertEvent`). -/
structure AlertEvent where
  alert : Alert
  timestamp : Int
deriving DecidableEq, Repr

/-- Capacity of the event-bus channel (`make(chan *AlertEvent, 200)`). -/
def eventBusCapacity : Nat := 200

/-- `processor.EventBus`: the buffered event channel content and whether
`stopCh` has been closed. The observer list is fixed before `Start` and
plays no role in the properties below. -/
structure EventBus where
  eventChan : List AlertEvent
  stopChClosed : Bool
deriving DecidableEq, Repr

/-- `processor.NewEventBus`. -/
def NewEventBus : EventBus := { eventChan := [], stopChClosed := false }

/-- `EventBus.Publish`: non-blocking buffered send — enqueue if the
channel has free space, otherwise drop the event (logged at warn). -/
def EventBus.Publish (eb : EventBus) (e : AlertEvent) : EventBus :=
  if eb.eventChan.length < eventBusCapacity then
    { eb with eventChan := eb.eventChan ++ [e] }
  else eb

/-- `EventBus.Stop`: `close(eb.stopCh)` with no stopped-guard, then wait.
Closing an already-closed channel is a Go runtime panic, modelled as
`none`. -/
def EventBus.Stop (eb : EventBus) : Option EventBus :=
  if eb.stopChClosed then none else some { eb with stopChClosed := true }

/-- State of the alert state manager's collaborators as seen through its
ports: the repository content (list of persisted alerts) and the sequence
of events handed to `EventBus.Publish`, in call order. -/
structure StateManagerState where
  repo : List Alert
  published : List AlertEvent
deriving DecidableEq, Repr

/-- `AlertStateManager.ProcessAlert`: persist via the repository port
(`create` models `AlertRepo.Create`, an interface: it maps the current
repository state and the alert to an error or the new state); on error
return `(false, err)` without publishing, on success hand exactly one
`AlertEvent{alert, now}` to `EventBus.Publish` and return `(true, nil)`. -/
def ProcessAlert (create : List Alert → Alert → Except String (List Alert))
    (now : Int) (st : StateManagerState) (alert : Alert) :
    (Bool × Option String) × StateManagerState :=
  match create st.repo alert with
  | .error e => ((false, some e), st)
  | .ok repo2 =>
      ((true, none),
       { repo := repo2,
         published := st.published ++ [{ alert := alert, timestamp := now }] })

/-- `InMemoryAlertRepo.Create`: append under the write lock, never an
error. -/
def InMemoryCreate (alerts : List Alert) (alert : Alert) :
    Except String (List Alert) :=
  .ok (alerts ++ [alert])

/-- `pool.WorkerPool`: worker count, queue capacity, buffered task queue
content (tasks as opaque identifiers), the `stopped` flag, and whether the
`stopChan`/`taskQueue` channels have been closed. -/
structure WorkerPool where
  workerCount : Int
  queueCapacity : Nat
  taskQueue : List Nat
  stopped : Bool
  stopChanClosed : Bool
  taskQueueClosed : Bool
deriving DecidableEq, Repr

/-- `pool.NewWorkerPool`: defaults `workerCount = 1` and `queueSize = 100`
when constructed with non-positive arguments. -/
def NewWorkerPool (workerCount queueSize : Int) : WorkerPool :=
  { workerCount := if workerCount ≤ 0 then 1 else workerCount
    queueCapacity := if queueSize ≤ 0 then 100 else queueSize.toNat
    taskQueue := []
    stopped := false
    stopChanClosed := false
    taskQueueClosed := false }

/-- Error message of `Submit` on a stopped pool. -/
def errWorkerPoolStopped : String := "worker pool is stopped"

/-- Error message of `Submit` on a full queue. -/
def errTaskQueueFull : String := "task queue is full"

/-- `WorkerPool.Submit`: fail fast when the `stopped` flag is set, then a
non-blocking buffered send — enqueue when the queue has free space, else
fail with the queue-full error. Total (never blocks). -/
def WorkerPool.Submit (wp : WorkerPool) (task : Nat) :
    Option String × WorkerPool :=
  if wp.stopped then (some errWorkerPoolStopped, wp)
  else if wp.taskQueue.length < wp.queueCapacity then
    (none, { wp with taskQueue := wp.taskQueue ++ [task] })
  else (some errTaskQueueFull, wp)

/-- `WorkerPool.SubmitWithContext`: return the context's error when the
context is already done at submit time (`ctxErr = some e`), else defer to
`Submit`. -/
def WorkerPool.SubmitWithContext (wp : WorkerPool) (ctxErr : Option String)
    (task : Nat) : Option String × WorkerPool :=
  match ctxErr with
  | some e => (some e, wp)
  | none => wp.Submit task

/-- `WorkerPool.Stop`: return immediately when already stopped, otherwise
set the flag, close `stopChan`, wait for the workers, and close
`taskQueue`. Closing an already-closed channel panics (`none`). -/
def WorkerPool.Stop (wp : WorkerPool) : Option WorkerPool :=
  if wp.stopped then some wp
  else if wp.stopChanClosed || wp.taskQueueClosed then none
  else some { wp with stopped := true, stopChanClosed := true,
                      taskQueueClosed := true }

/-- `InMemoryAlertRepo.GetRecent`: `start := len(alerts) - limit`, clamped
below at 0; the Go slice expression `alerts[start:]` panics (`none`) when
`start > len(alerts)`, which happens exactly for negative `limit`. The
repository state is returned unchanged alongside the result (the method
reads under `RLock` and never mutates). -/
def InMemoryGetRecent (alerts : List Alert) (limit : Int) :
    Option (List Alert × List Alert) :=
  let start0 : Int := (alerts.length : Int) - limit
  let start : Int := if start0 < 0 then 0 else start0
  if start ≤ (alerts.length : Int) then
    some (alerts.drop start.toNat, alerts)
  else none

/-- Descending order on `triggered_at` (the `ORDER BY triggered_at DESC`
of the Postgres adapter). -/
def triggeredGe (a b : Alert) : Prop := b.triggeredAt ≤ a.triggeredAt

instance : DecidableRel triggeredGe := fun a b =>
  inferInstanceAs (Decidable (b.triggeredAt ≤ a.triggeredAt))

instance : IsTotal Alert triggeredGe :=
  ⟨fun a b => le_total b.triggeredAt a.triggeredAt⟩

instance : IsTrans Alert triggeredGe :=
  ⟨fun _ _ _ hab hbc => le_trans hbc hab⟩

/-- `PostgresAlertRepo.GetRecent`: denotation of
`ORDER BY triggered_at DESC LIMIT limit` over the stored rows (for a
non-negative limit; the adapter delegates row ordering to the database). -/
def PostgresGetRecent (alerts : List Alert) (limit : Int) : List Alert :=
  (List.insertionSort triggeredGe alerts).take limit.toNat

/-- `config.EmailConfig`. -/
structure EmailConfig where
  enabled : Bool
  smtpHost : String
  smtpPort : Int
  username : String
  password : String
  fromAddr : String
  toAddrs : List String
deriving DecidableEq, Repr

/-- `EmailDispatcher.OnAlert`: skip with a nil error and no send attempt
when the SMTP host or username is empty; otherwise try
`smtp.SendMail` up to twice (`send n` models the outcome of attempt `n`,
`none` meaning success) and surface the wrapped error after the second
failure. Returns the error result and the number of send attempts made. -/
def EmailOnAlert (cfg : EmailConfig) (send : Nat → Option String)
    (_event : AlertEvent) : Option String × Nat :=
  if cfg.smtpHost == "" || cfg.username == "" then (none, 0)
  else
    match send 0 with
    | none => (none, 1)
    | some _ =>
        match send 1 with
        | none => (none, 2)
        | some e => (some ("email dispatch failed after retries: " ++ e), 2)

/-- The `alert_type` label of an alert. -/
def alertTypeLabel (a : Alert) : Option String := a.labels.lookup "alert_type"

/-- The alerts of a given `alert_type` among a list of alerts. -/
def alertsOfType (t : String) (l : List Alert) : List Alert :=
  l.filter (fun a => alertTypeLabel a == some t)

/-- Modelled from the spec: the fixed severity table of §4.3, one severity
per alert type, as the claim states it. -/
def specSeverity : AlertType → String
  | .podFailed => "critical"
  | .podUnknown => "critical"
  | .podOOMKilled => "critical"
  | .nodeNotReady => "critical"
  | .podCrashLoop => "high"
  | .podImagePull => "high"
  | .podRestartThreshold => "high"
  | .nodeMemoryPressure => "high"
  | .nodeDiskPressure => "high"
  | .podCPUHigh => "high"
  | .podMemoryHigh => "high"
  | .podPending => "medium"
  | .nodePIDPressure => "medium"
  | .nodeCPUHigh => "critical"
  | .nodeMemoryHigh => "critical"

/-- The alert types `PodWatcher.evaluatePodConditions` passes to
`BuildPodAlert`. -/
def podEventAlertTypes : List AlertType :=
  [.podFailed, .podUnknown, .podOOMKilled, .podCrashLoop, .podImagePull,
   .podRestartThreshold, .podPending]

/-- The alert types the node watcher passes to `BuildNodeAlert`. -/
def nodeEventAlertTypes : List AlertType :=
  [.nodeNotReady, .nodeMemoryPressure, .nodeDiskPressure, .nodePIDPressure]

/-- The alert types `MetricsWatcher.checkPodMetrics` passes to
`BuildPodMetricAlert`. -/
def podMetricAlertTypes : List AlertType := [.podCPUHigh, .podMemoryHigh]

/-- The alert types `MetricsWatcher.checkNodeMetrics` passes to
`BuildNodeMetricAlert`. -/
def nodeMetricAlertTypes : List AlertType := [.nodeCPUHigh, .nodeMemoryHigh]

/-- C3: the severity assigned by each alert builder is exactly the fixed
value of the §4.3 table for the alert type it is invoked with, and
repeated evaluation of the same object with the same thresholds yields the
same alerts (the evaluators are pure functions of their inputs; ids are
not modelled). -/
theorem builders_follow_severity_table :
    (∀ (pod : Pod) (t : AlertType) (v : Rat) (now : Int),
      t ∈ podEventAlertTypes →
        (BuildPodAlert pod t v now).severity = specSeverity t)
    ∧ (∀ (node : Node) (t : AlertType) (v : Rat) (now : Int),
      t ∈ nodeEventAlertTypes →
        (BuildNodeAlert node t v now).severity = specSeverity t)
    ∧ (∀ (ns pn : String) (t : AlertType) (v th : Rat) (now : Int),
      t ∈ podMetricAlertTypes →
        (BuildPodMetricAlert ns pn t v th now).severity = specSeverity t)
    ∧ (∀ (n : String) (t : AlertType) (v th : Rat) (now : Int),
      t ∈ nodeMetricAlertTypes →
        (BuildNodeMetricAlert n t v th now).severity = specSeverity t)
    ∧ (∀ (threshold now : Int) (pod : Pod) (rules : AlertRulesConfig)
        (pm : PodMetrics) (nm : NodeMetrics),
      evaluatePodConditions threshold now pod
        = evaluatePodConditions threshold now pod
      ∧ checkPodMetricsAlerts rules pm now = checkPodMetricsAlerts rules pm now
      ∧ checkNodeMetricsAlerts rules nm now
        = checkNodeMetricsAlerts rules nm now) := by
  refine ⟨?_, ?_, ?_, ?_, ?_⟩
  · intro pod t v now ht
    fin_cases ht <;> rfl
  · intro node t v now ht
    fin_cases ht <;> rfl
  · intro ns pn t v th now ht
    fin_cases ht <;> rfl
  · intro n t v th now ht
    fin_cases ht <;> rfl
  · intro _ _ _ _ _ _
    exact ⟨rfl, rfl, rfl⟩

/-- A sample pod used to instantiate hypotheses in witnesses. -/
def samplePod : Pod :=
  { ns := "prod", name := "web-7", phase := "Running", statusReason := ""
    statusMessage := ""
    containerStatuses :=
      [{ name := "app", restartCount := 4, waiting := none
         lastTerminated := some { reason := "OOMKilled" } }]
    creationTimestamp := 0 }

/-- Witness for C3 at a concrete input: a crash-loop pod alert carries the
table severity `high`. -/
theorem builders_follow_severity_table_witness :
    (BuildPodAlert samplePod .podCrashLoop 4 0).severity
      = specSeverity .podCrashLoop :=
  builders_follow_severity_table.1 samplePod .podCrashLoop 4 0 (by decide)

/-- Every builder records its alert type in the `alert_type` label. -/
theorem alertTypeLabel_BuildPodAlert (pod : Pod) (t : AlertType) (v : Rat)
    (now : Int) : alertTypeLabel (BuildPodAlert pod t v now) = some t.str := by
  cases t <;>
    simp [alertTypeLabel, BuildPodAlert, NewAlert, setLabel, List.lookup,
      AlertType.str]

/-- Filtering by alert type distributes over append. -/
theorem alertsOfType_append (s : String) (l₁ l₂ : List Alert) :
    alertsOfType s (l₁ ++ l₂) = alertsOfType s l₁ ++ alertsOfType s l₂ :=
  List.filter_append ..

/-- Filtering a single built pod alert keeps it exactly when the type
matches. -/
theorem alertsOfType_single_build (s : String) (pod : Pod) (t : AlertType)
    (v : Rat) (now : Int) :
    alertsOfType s [BuildPodAlert pod t v now]
      = if t.str = s then [BuildPodAlert pod t v now] else [] := by
  by_cases h : t.str = s
  · simp [alertsOfType, List.filter, alertTypeLabel_BuildPodAlert, h]
  · rw [if_neg h]
    have hb : (alertTypeLabel (BuildPodAlert pod t v now) == some s) = false := by
      rw [alertTypeLabel_BuildPodAlert]
      exact beq_eq_false_iff_ne.mpr (by simpa using h)
    simp [alertsOfType, List.filter, hb]

/-- Filtering a conditional singleton commutes with the conditional. -/
theorem alertsOfType_ite (s : String) (c : Prop) [Decidable c]
    (l : List Alert) :
    alertsOfType s (if c then l else [])
      = if c then alertsOfType s l else [] := by
  split <;> rfl

/-- A per-container alert bundle of `evaluatePodConditions` contains no
alert of a type other than the three container alert types it builds. -/
theorem alertsOfType_container_bundle (s : String) (pod : Pod) (now : Int)
    (hs₁ : s ≠ "pod_oom_killed") (hs₂ : s ≠ "pod_crash_loop")
    (hs₃ : s ≠ "pod_image_pull") :
    alertsOfType s (pod.containerStatuses.flatMap (fun cs =>
      (if csOOMKilled cs then
        [BuildPodAlert pod .podOOMKilled (cs.restartCount : Rat) now] else [])
      ++ (if csCrashLoop cs then
        [BuildPodAlert pod .podCrashLoop (cs.restartCount : Rat) now] else [])
      ++ (if csImagePull cs then
        [BuildPodAlert pod .podImagePull 1 now] else []))) = [] := by
  induction pod.containerStatuses with
  | nil => rfl
  | cons cs l ih =>
    rw [List.flatMap_cons, alertsOfType_append, ih, List.append_nil,
      alertsOfType_append, alertsOfType_append]
    rw [alertsOfType_ite, alertsOfType_ite, alertsOfType_ite]
    rw [alertsOfType_single_build, alertsOfType_single_build,
      alertsOfType_single_build]
    simp [AlertType.str, Ne.symm hs₁, Ne.symm hs₂, Ne.symm hs₃]

/-- C5 (amended): a pod in phase `Pending` yields a `pod_pending` alert
(severity `medium`, value `1.0`) if and only if it has been pending for
STRICTLY more than the 5-minute grace (`time.Since(creation) >
pendingTimeout`); at exactly 300 seconds no alert is emitted. -/
theorem pod_pending_strict_grace (threshold now : Int) (pod : Pod)
    (hphase : pod.phase = "Pending") :
    alertsOfType "pod_pending" (evaluatePodConditions threshold now pod)
      = (if podPendingTimeoutSeconds < now - pod.creationTimestamp then
          [BuildPodAlert pod .podPending 1 now] else [])
    ∧ (BuildPodAlert pod .podPending 1 now).severity = "medium"
    ∧ (BuildPodAlert pod .podPending 1 now).value = 1 := by
  refine ⟨?_, rfl, rfl⟩
  unfold evaluatePodConditions
  rw [alertsOfType_append, alertsOfType_append, alertsOfType_append,
    alertsOfType_append]
  rw [alertsOfType_container_bundle _ _ _ (by decide) (by decide) (by decide)]
  rw [alertsOfType_ite, alertsOfType_ite, alertsOfType_ite, alertsOfType_ite,
    alertsOfType_single_build, alertsOfType_single_build,
    alertsOfType_single_build, alertsOfType_single_build]
  have hf : (pod.phase == "Failed") = false := by
    rw [hphase]; decide
  have hu : (pod.phase == "Unknown") = false := by
    rw [hphase]; decide
  have hp : (pod.phase == "Pending") = true := by
    rw [hphase]; decide
  simp only [hf, hu, hp, AlertType.str, if_false, if_true]
  simp

/-- A pod sitting in phase `Pending` since time zero, with no container
statuses (scenario S2 of the spec). -/
def pendingPod : Pod :=
  { ns := "prod", name := "web-7", phase := "Pending", statusReason := ""
    statusMessage := "", containerStatuses := [], creationTimestamp := 0 }

/-- C5 counterexample: at exactly 300 seconds the pod HAS been pending
for at least 5 minutes, yet the evaluator emits no `pod_pending` alert —
the code compares with strict `>`, refuting the claim's `≥`. -/
theorem pod_pending_at_exact_grace_refutes :
    pendingPod.phase = "Pending"
    ∧ (300 : Int) - pendingPod.creationTimestamp ≥ 300
    ∧ alertsOfType "pod_pending" (evaluatePodConditions 3 300 pendingPod)
        = [] := by
  refine ⟨rfl, by decide, ?_⟩
  decide

/-- Witness for C5: the same pod at 299 seconds yields no alert and at
301 seconds yields exactly the medium-severity `pod_pending` alert. -/
theorem pod_pending_strict_grace_witness :
    alertsOfType "pod_pending" (evaluatePodConditions 3 299 pendingPod) = []
    ∧ alertsOfType "pod_pending" (evaluatePodConditions 3 301 pendingPod)
        = [BuildPodAlert pendingPod .podPending 1 301]
    ∧ (BuildPodAlert pendingPod .podPending 1 301).severity = "medium"
    ∧ (BuildPodAlert pendingPod .podPending 1 301).value = 1 := by
  refine ⟨?_, ?_, (pod_pending_strict_grace 3 301 pendingPod rfl).2.1,
    (pod_pending_strict_grace 3 301 pendingPod rfl).2.2⟩
  · rw [(pod_pending_strict_grace 3 299 pendingPod rfl).1]
    decide
  · rw [(pod_pending_strict_grace 3 301 pendingPod rfl).1]
    decide

/-- Modelled from the claim: the highest restart count among a list of
container statuses. -/
def maxRestartCount : List ContainerStatus → Nat
  | [] => 0
  | cs :: l => max cs.restartCount (maxRestartCount l)

/-- Modelled from the claim: the name of the first container in iteration
order whose restart count attains the maximum (the claim's tie-break). -/
def firstMaxContainerName (l : List ContainerStatus) : String :=
  match l.find? (fun cs => cs.restartCount == maxRestartCount l) with
  | some cs => cs.name
  | none => "unknown"

/-- The fold of `getHighestRestartContainer` never updates once the
accumulator dominates every remaining count. -/
theorem foldl_highest_of_le (l : List ContainerStatus) :
    ∀ (m : Nat) (n : String), maxRestartCount l ≤ m →
      l.foldl (fun acc cs =>
          if acc.1 < cs.restartCount then (cs.restartCount, cs.name) else acc)
        (m, n) = (m, n) := by
  induction l with
  | nil => intro m n _; rfl
  | cons cs l ih =>
    intro m n h
    simp only [maxRestartCount, max_le_iff] at h
    rw [List.foldl_cons, if_neg (by omega)]
    exact ih m n h.2

/-- The fold of `getHighestRestartContainer`, started strictly below the
maximum, ends at the first container attaining the maximum. -/
theorem foldl_highest_of_lt (l : List ContainerStatus) :
    ∀ (m : Nat) (n : String), m < maxRestartCount l →
      (l.foldl (fun acc cs =>
          if acc.1 < cs.restartCount then (cs.restartCount, cs.name) else acc)
        (m, n)).2 = firstMaxContainerName l := by
  induction l with
  | nil => intro m n h; simp [maxRestartCount] at h
  | cons cs l ih =>
    intro m n h
    rw [List.foldl_cons]
    by_cases hcs : maxRestartCount l ≤ cs.restartCount
    · have hM : maxRestartCount (cs :: l) = cs.restartCount := by
        simp only [maxRestartCount]; omega
      rw [if_pos (by rw [hM] at h; exact h)]
      rw [foldl_highest_of_le l cs.restartCount cs.name hcs]
      have hfind : (cs :: l).find?
          (fun c => c.restartCount == maxRestartCount (cs :: l)) = some cs := by
        rw [List.find?_cons_of_pos]
        rw [hM]
        exact beq_self_eq_true _
      simp [firstMaxContainerName, hfind]
    · push_neg at hcs
      have hM : maxRestartCount (cs :: l) = maxRestartCount l := by
        simp only [maxRestartCount]; omega
      have hnot : ¬ (cs.restartCount == maxRestartCount (cs :: l)) = true := by
        rw [hM]
        simp only [beq_iff_eq]
        omega
      have hfm : firstMaxContainerName (cs :: l) = firstMaxContainerName l := by
        unfold firstMaxContainerName
        have hdrop : List.find?
            (fun c => c.restartCount == maxRestartCount (cs :: l)) (cs :: l)
            = List.find?
              (fun c => c.restartCount == maxRestartCount (cs :: l)) l :=
          List.find?_cons_of_neg _ hnot
        rw [hdrop, hM]
      rw [hfm]
      by_cases hup : m < cs.restartCount
      · rw [if_pos hup]
        exact ih cs.restartCount cs.name hcs
      · rw [if_neg hup]
        exact ih m n (by rw [hM] at h; exact h)

/-- `totalRestarts` is the sum of the restart counts. -/
theorem totalRestarts_eq_sum (pod : Pod) :
    totalRestarts pod
      = (pod.containerStatuses.map (fun cs => cs.restartCount)).sum := by
  have key : ∀ (l : List ContainerStatus) (a : Nat),
      l.foldl (fun acc cs => acc + cs.restartCount) a
        = a + (l.map (fun cs => cs.restartCount)).sum := by
    intro l
    induction l with
    | nil => intro a; simp
    | cons cs l ih => intro a; simp [ih]; omega
  simpa using key pod.containerStatuses 0

/-- A positive restart total forces a positive maximum restart count. -/
theorem maxRestartCount_pos_of_total_pos (pod : Pod)
    (h : 0 < totalRestarts pod) :
    0 < maxRestartCount pod.containerStatuses := by
  rw [totalRestarts_eq_sum] at h
  have key : ∀ l : List ContainerStatus,
      0 < (l.map (fun cs => cs.restartCount)).sum → 0 < maxRestartCount l := by
    intro l
    induction l with
    | nil => intro h2; simp at h2
    | cons cs l ih =>
      intro h2
      simp only [List.map_cons, List.sum_cons] at h2
      have h3 : 0 < cs.restartCount
          ∨ 0 < (l.map (fun cs => cs.restartCount)).sum := by omega
      simp only [maxRestartCount]
      rcases h3 with h3 | h3
      · exact lt_max_of_lt_left h3
      · exact lt_max_of_lt_right (ih h3)
  exact key _ h

/-- When some container has restarted at all, the source fold agrees with
the claim's first-maximal-container tie-break. -/
theorem getHighestRestartContainer_eq_firstMax (pod : Pod)
    (h : 0 < maxRestartCount pod.containerStatuses) :
    getHighestRestartContainer pod
      = firstMaxContainerName pod.containerStatuses :=
  foldl_highest_of_lt pod.containerStatuses 0 "unknown" h

/-- The restart-threshold alert labels the container chosen by
`getHighestRestartContainer`. -/
theorem restart_alert_container_label (pod : Pod) (v : Rat) (now : Int) :
    (BuildPodAlert pod .podRestartThreshold v now).labels.lookup "container"
      = some (getHighestRestartContainer pod) := by
  simp [BuildPodAlert, NewAlert, setLabel, List.lookup, AlertType.str]

/-- C7: a `pod_restart_threshold` alert is emitted iff the restart total
strictly exceeds the configured threshold; its value is the total, and
(for the configured non-negative threshold) its `container` label names
the first container in iteration order attaining the highest restart
count. -/
theorem restart_threshold_alert (threshold now : Int) (pod : Pod) :
    (alertsOfType "pod_restart_threshold"
        (evaluatePodConditions threshold now pod)
      = if threshold < (totalRestarts pod : Int) then
          [BuildPodAlert pod .podRestartThreshold (totalRestarts pod : Rat) now]
        else [])
    ∧ (BuildPodAlert pod .podRestartThreshold (totalRestarts pod : Rat)
        now).value = (totalRestarts pod : Rat)
    ∧ (0 ≤ threshold → threshold < (totalRestarts pod : Int) →
        (BuildPodAlert pod .podRestartThreshold (totalRestarts pod : Rat)
            now).labels.lookup "container"
          = some (firstMaxContainerName pod.containerStatuses)) := by
  refine ⟨?_, rfl, ?_⟩
  · unfold evaluatePodConditions
    rw [alertsOfType_append, alertsOfType_append, alertsOfType_append,
      alertsOfType_append,
      alertsOfType_container_bundle _ _ _ (by decide) (by decide) (by decide),
      alertsOfType_ite, alertsOfType_ite, alertsOfType_ite, alertsOfType_ite,
      alertsOfType_single_build, alertsOfType_single_build,
      alertsOfType_single_build, alertsOfType_single_build]
    simp [AlertType.str]
  · intro hT htot
    have hmax : 0 < maxRestartCount pod.containerStatuses := by
      apply maxRestartCount_pos_of_total_pos
      omega
    rw [restart_alert_container_label,
      getHighestRestartContainer_eq_firstMax pod hmax]

/-- Witness for C7: `samplePod` (one container `app` with 4 restarts) over
threshold 3 emits exactly one restart alert labelled with `app`. -/
theorem restart_threshold_alert_witness :
    alertsOfType "pod_restart_threshold" (evaluatePodConditions 3 0 samplePod)
      = [BuildPodAlert samplePod .podRestartThreshold
          (totalRestarts samplePod : Rat) 0]
    ∧ (BuildPodAlert samplePod .podRestartThreshold
        (totalRestarts samplePod : Rat) 0).labels.lookup "container"
      = some (firstMaxContainerName samplePod.containerStatuses) := by
  refine ⟨?_, (restart_threshold_alert 3 0 samplePod).2.2 (by decide)
    (by decide)⟩
  rw [(restart_threshold_alert 3 0 samplePod).1, if_pos (by decide)]

/-- The pod metric builder records its alert type in the `alert_type`
label. -/
theorem alertTypeLabel_BuildPodMetricAlert (ns pn : String) (t : AlertType)
    (v th : Rat) (now : Int) :
    alertTypeLabel (BuildPodMetricAlert ns pn t v th now) = some t.str := by
  cases t <;>
    simp [alertTypeLabel, BuildPodMetricAlert, NewAlert, setLabel,
      List.lookup, AlertType.str]

/-- Filtering a single built pod metric alert keeps it exactly when the
type matches. -/
theorem alertsOfType_single_metric (s ns pn : String) (t : AlertType)
    (v th : Rat) (now : Int) :
    alertsOfType s [BuildPodMetricAlert ns pn t v th now]
      = if t.str = s then [BuildPodMetricAlert ns pn t v th now] else [] := by
  by_cases h : t.str = s
  · simp [alertsOfType, List.filter, alertTypeLabel_BuildPodMetricAlert, h]
  · rw [if_neg h]
    have hb : (alertTypeLabel (BuildPodMetricAlert ns pn t v th now)
        == some s) = false := by
      rw [alertTypeLabel_BuildPodMetricAlert]
      exact beq_eq_false_iff_ne.mpr (by simpa using h)
    simp [alertsOfType, List.filter, hb]

/-- C8: a `pod_cpu_high` alert is produced iff the CPU request is positive
and the CPU usage percentage strictly exceeds the threshold (symmetrically
for memory), the alert value is the observed percentage, and a snapshot
with both requests zero produces no metric alert at all. -/
theorem pod_metric_alerts_iff (rules : AlertRulesConfig) (m : PodMetrics)
    (now : Int) :
    (alertsOfType "pod_cpu_high" (checkPodMetricsAlerts rules m now)
      = if 0 < m.cpuRequestMillis ∧ rules.podCPUPercent < m.cpuUsagePercent
        then [BuildPodMetricAlert m.ns m.podName .podCPUHigh
          m.cpuUsagePercent rules.podCPUPercent now]
        else [])
    ∧ (alertsOfType "pod_memory_high" (checkPodMetricsAlerts rules m now)
      = if 0 < m.memoryRequestBytes
          ∧ rules.podMemoryPercent < m.memoryUsagePercent
        then [BuildPodMetricAlert m.ns m.podName .podMemoryHigh
          m.memoryUsagePercent rules.podMemoryPercent now]
        else [])
    ∧ (BuildPodMetricAlert m.ns m.podName .podCPUHigh m.cpuUsagePercent
        rules.podCPUPercent now).value = m.cpuUsagePercent
    ∧ (BuildPodMetricAlert m.ns m.podName .podMemoryHigh
        m.memoryUsagePercent rules.podMemoryPercent now).value
        = m.memoryUsagePercent
    ∧ (m.cpuRequestMillis = 0 ∧ m.memoryRequestBytes = 0 →
        checkPodMetricsAlerts rules m now = []) := by
  refine ⟨?_, ?_, rfl, rfl, ?_⟩
  · unfold checkPodMetricsAlerts
    by_cases hskip : (m.cpuRequestMillis == 0 && m.memoryRequestBytes == 0)
      = true
    · rw [if_pos hskip]
      simp only [Bool.and_eq_true, beq_iff_eq] at hskip
      rw [if_neg (by simp [hskip.1])]
      rfl
    · rw [if_neg hskip, alertsOfType_append, alertsOfType_ite,
        alertsOfType_ite, alertsOfType_single_metric,
        alertsOfType_single_metric]
      simp [AlertType.str]
  · unfold checkPodMetricsAlerts
    by_cases hskip : (m.cpuRequestMillis == 0 && m.memoryRequestBytes == 0)
      = true
    · rw [if_pos hskip]
      simp only [Bool.and_eq_true, beq_iff_eq] at hskip
      rw [if_neg (by simp [hskip.2])]
      rfl
    · rw [if_neg hskip, alertsOfType_append, alertsOfType_ite,
        alertsOfType_ite, alertsOfType_single_metric,
        alertsOfType_single_metric]
      simp [AlertType.str]
  · intro h
    unfold checkPodMetricsAlerts
    rw [if_pos (by simp [h.1, h.2])]

/-- The S4 scenario snapshot: CPU request 500 m, usage 450 m (90 %). -/
def sampleSnapshot : PodMetrics :=
  { ns := "a", podName := "b", cpuUsageMillicores := 450
    cpuUsagePercent := 90, memoryUsageBytes := 0, memoryUsagePercent := 0
    cpuRequestMillis := 500, memoryRequestBytes := 0 }

/-- The thresholds used in the S4 scenario (T_pc = 80). -/
def sampleRules : AlertRulesConfig :=
  { podRestartThreshold := 3, podCPUPercent := 80, podMemoryPercent := 80
    nodeCPUPercent := 80, nodeMemoryPercent := 80 }

/-- Witness for C8: the S4 snapshot produces exactly the cpu alert with
value 90, and a snapshot with no requests produces nothing. -/
theorem pod_metric_alerts_iff_witness :
    alertsOfType "pod_cpu_high"
        (checkPodMetricsAlerts sampleRules sampleSnapshot 0)
      = [BuildPodMetricAlert "a" "b" .podCPUHigh 90 80 0]
    ∧ checkPodMetricsAlerts sampleRules
        { sampleSnapshot with cpuRequestMillis := 0 } 0 = [] := by
  constructor
  · rw [(pod_metric_alerts_iff sampleRules sampleSnapshot 0).1,
      if_pos (by constructor <;> decide)]
    rfl
  · exact (pod_metric_alerts_iff sampleRules
      { sampleSnapshot with cpuRequestMillis := 0 } 0).2.2.2.2 ⟨rfl, rfl⟩

/-- C1: `ProcessAlert` persists first; a persistence error yields
`(false, err)` with nothing handed to the bus, and success yields
`(true, nil)` with exactly one `AlertEvent` carrying the alert handed to
`EventBus.Publish`. -/
theorem processAlert_persist_then_publish
    (create : List Alert → Alert → Except String (List Alert)) (now : Int)
    (st : StateManagerState) (a : Alert) :
    (∀ e, create st.repo a = .error e →
      ProcessAlert create now st a = ((false, some e), st))
    ∧ (∀ repo2, create st.repo a = .ok repo2 →
      ProcessAlert create now st a
        = ((true, none),
           { repo := repo2,
             published := st.published
               ++ [{ alert := a, timestamp := now }] })) := by
  constructor
  · intro e he
    unfold ProcessAlert
    rw [he]
  · intro repo2 hr
    unfold ProcessAlert
    rw [hr]

/-- A sample alert for witnesses. -/
def sampleAlert : Alert := NewAlert "high" "test" 100 [] 5

/-- A repository whose `Create` always fails. -/
def failingCreate (_ : List Alert) (_ : Alert) : Except String (List Alert) :=
  .error "persist failed"

/-- Witness for C1: on the in-memory repository the alert is persisted and
published once; on a failing repository nothing is published. -/
theorem processAlert_persist_then_publish_witness :
    ProcessAlert InMemoryCreate 5 { repo := [], published := [] } sampleAlert
      = ((true, none),
         { repo := [sampleAlert],
           published := [{ alert := sampleAlert, timestamp := 5 }] })
    ∧ ProcessAlert failingCreate 5 { repo := [], published := [] } sampleAlert
      = ((false, some "persist failed"), { repo := [], published := [] }) :=
  ⟨(processAlert_persist_then_publish InMemoryCreate 5
      { repo := [], published := [] } sampleAlert).2 [sampleAlert] rfl,
   (processAlert_persist_then_publish failingCreate 5
      { repo := [], published := [] } sampleAlert).1 "persist failed" rfl⟩

/-- C6: `Submit` is total (never blocks): it fails with the stopped error
whenever the pool is stopped, enqueues and returns nil when space exists,
fails with the queue-full error when the queue is at capacity, and
`SubmitWithContext` returns the context error when the context is already
done at submit time. -/
theorem submit_never_blocks (wp : WorkerPool) (task : Nat)
    (ctxErr : Option String) :
    (wp.stopped = true → wp.Submit task = (some errWorkerPoolStopped, wp))
    ∧ (wp.stopped = false → wp.taskQueue.length < wp.queueCapacity →
        wp.Submit task
          = (none, { wp with taskQueue := wp.taskQueue ++ [task] }))
    ∧ (wp.stopped = false → ¬ wp.taskQueue.length < wp.queueCapacity →
        wp.Submit task = (some errTaskQueueFull, wp))
    ∧ (∀ e, ctxErr = some e →
        wp.SubmitWithContext ctxErr task = (some e, wp))
    ∧ (ctxErr = none →
        wp.SubmitWithContext ctxErr task = wp.Submit task) := by
  refine ⟨?_, ?_, ?_, ?_, ?_⟩
  · intro h
    unfold WorkerPool.Submit
    rw [if_pos h]
  · intro h hq
    unfold WorkerPool.Submit
    rw [if_neg (by simp [h]), if_pos hq]
  · intro h hq
    unfold WorkerPool.Submit
    rw [if_neg (by simp [h]), if_neg hq]
  · intro e he
    unfold WorkerPool.SubmitWithContext
    rw [he]
  · intro he
    unfold WorkerPool.SubmitWithContext
    rw [he]

/-- A freshly constructed pool of 2 workers and queue capacity 3. -/
def freshPool : WorkerPool := NewWorkerPool 2 3

/-- The fresh pool with its `stopped` flag set (as after `Stop`). -/
def stoppedPool : WorkerPool :=
  { freshPool with stopped := true, stopChanClosed := true,
                   taskQueueClosed := true }

/-- The fresh pool with its queue at capacity. -/
def fullPool : WorkerPool := { freshPool with taskQueue := [1, 2, 3] }

/-- Witness for C6 at concrete pools: enqueue on a fresh pool, stopped
error on a stopped pool, queue-full error at capacity, context error when
the context is done. -/
theorem submit_never_blocks_witness :
    freshPool.Submit 7 = (none, { freshPool with taskQueue := [7] })
    ∧ stoppedPool.Submit 7 = (some errWorkerPoolStopped, stoppedPool)
    ∧ fullPool.Submit 7 = (some errTaskQueueFull, fullPool)
    ∧ freshPool.SubmitWithContext (some "context canceled") 7
        = (some "context canceled", freshPool) :=
  ⟨(submit_never_blocks freshPool 7 none).2.1 rfl (by decide),
   (submit_never_blocks stoppedPool 7 none).1 rfl,
   (submit_never_blocks fullPool 7 none).2.2.1 rfl (by decide),
   (submit_never_blocks freshPool 7 (some "context canceled")).2.2.2.1
     "context canceled" rfl⟩

/-- C2 counterexample: a second `Stop` on the event bus is NOT safe — the
first `Stop` closes `stopCh`, and the second closes the already-closed
channel, a runtime panic (`none`). -/
theorem double_stop_bus_refutes :
    NewEventBus.Stop = some { NewEventBus with stopChClosed := true }
    ∧ EventBus.Stop { NewEventBus with stopChClosed := true } = none := by
  exact ⟨rfl, rfl⟩

/-- C2 (amended): a second `Stop` on the worker pool is safe (the
`stopped` flag guards it and the state is unchanged), but the event bus's
`Stop` closes `stopCh` unguarded, so a second call panics; the WebSocket
hub has no `Stop` method at all (it terminates via context cancellation). -/
theorem double_stop_pool_safe_bus_panics :
    (∀ wp : WorkerPool, wp.stopped = true → wp.Stop = some wp)
    ∧ (∀ n q : Int,
        (NewWorkerPool n q).Stop.bind WorkerPool.Stop
          = (NewWorkerPool n q).Stop)
    ∧ (∀ eb : EventBus, eb.stopChClosed = true → eb.Stop = none) := by
  refine ⟨?_, ?_, ?_⟩
  · intro wp h
    unfold WorkerPool.Stop
    rw [if_pos h]
  · intro n q
    rfl
  · intro eb h
    unfold EventBus.Stop
    rw [if_pos h]

/-- Witness for the amended C2 at concrete components. -/
theorem double_stop_pool_safe_bus_panics_witness :
    stoppedPool.Stop = some stoppedPool
    ∧ (NewWorkerPool 2 3).Stop.bind WorkerPool.Stop
        = (NewWorkerPool 2 3).Stop
    ∧ EventBus.Stop { eventChan := [], stopChClosed := true } = none :=
  ⟨double_stop_pool_safe_bus_panics.1 stoppedPool rfl,
   double_stop_pool_safe_bus_panics.2.1 2 3,
   double_stop_pool_safe_bus_panics.2.2 { eventChan := [], stopChClosed := true } rfl⟩

/-- C9: `EmailDispatcher.OnAlert` with an empty SMTP host or username
returns a nil error and performs no send attempt. -/
theorem email_skips_incomplete_config (cfg : EmailConfig)
    (send : Nat → Option String) (ev : AlertEvent)
    (h : cfg.smtpHost = "" ∨ cfg.username = "") :
    EmailOnAlert cfg send ev = (none, 0) := by
  unfold EmailOnAlert
  rcases h with h | h <;> simp [h]

/-- An email configuration missing its SMTP host. -/
def incompleteEmailConfig : EmailConfig :=
  { enabled := true, smtpHost := "", smtpPort := 587
    username := "user@example.com", password := "pw"
    fromAddr := "alerts@example.com", toAddrs := ["admin@example.com"] }

/-- A sample alert event for the email witness. -/
def sampleEvent : AlertEvent := { alert := sampleAlert, timestamp := 5 }

/-- Witness for C9: even with an SMTP layer that would always fail, the
dispatcher skips silently under the incomplete configuration. -/
theorem email_skips_incomplete_config_witness :
    EmailOnAlert incompleteEmailConfig (fun _ => some "connection refused")
      sampleEvent = (none, 0) :=
  email_skips_incomplete_config incompleteEmailConfig
    (fun _ => some "connection refused") sampleEvent (Or.inl rfl)

/-- For a non-negative limit the in-memory `GetRecent` returns the suffix
of the last `min(limit, count)` stored alerts and leaves the store
unchanged. -/
theorem inMemoryGetRecent_nonneg (alerts : List Alert) (limit : Int)
    (h : 0 ≤ limit) :
    InMemoryGetRecent alerts limit
      = some (alerts.drop (alerts.length - limit.toNat), alerts) := by
  simp only [InMemoryGetRecent]
  split_ifs with h0 hg1 hg2
  · rw [show ((0 : Int)).toNat = alerts.length - limit.toNat from by omega]
  · exfalso; omega
  · rw [show ((alerts.length : Int) - limit).toNat
      = alerts.length - limit.toNat from by omega]
  · exfalso; omega

/-- For a negative limit the slice lower bound exceeds the list length
and the in-memory `GetRecent` panics. -/
theorem inMemoryGetRecent_neg (alerts : List Alert) (limit : Int)
    (h : limit < 0) : InMemoryGetRecent alerts limit = none := by
  simp only [InMemoryGetRecent]
  split_ifs with h0 hg1 hg2 <;> first | rfl | (exfalso; omega)

/-- C4 counterexample: with two stored alerts triggered at 0 and 1 and
limit 2, the in-memory `GetRecent` returns them oldest first — the result
is not ordered descending by `triggered_at`. -/
theorem getRecent_order_refutes :
    InMemoryGetRecent
        [NewAlert "low" "test" 0 [] 0, NewAlert "low" "test" 0 [] 1] 2
      = some ([NewAlert "low" "test" 0 [] 0, NewAlert "low" "test" 0 [] 1],
          [NewAlert "low" "test" 0 [] 0, NewAlert "low" "test" 0 [] 1])
    ∧ ¬ List.Sorted triggeredGe
        [NewAlert "low" "test" 0 [] 0, NewAlert "low" "test" 0 [] 1] := by
  constructor
  · rfl
  · intro hsorted
    have h01 := List.rel_of_sorted_cons hsorted
      (NewAlert "low" "test" 0 [] 1) (by simp)
    simp [triggeredGe, NewAlert] at h01

/-- C4 (amended): for every non-negative limit both adapters return at
most `limit` alerts; the Postgres adapter orders them descending by
`triggered_at`, while the in-memory adapter returns the last
`min(limit, count)` stored alerts in storage (insertion) order, oldest
first. -/
theorem getRecent_limit_and_order (alerts : List Alert) (limit : Int)
    (h : 0 ≤ limit) :
    (InMemoryGetRecent alerts limit
      = some (alerts.drop (alerts.length - limit.toNat), alerts)
     ∧ (alerts.drop (alerts.length - limit.toNat)).length ≤ limit.toNat)
    ∧ ((PostgresGetRecent alerts limit).length ≤ limit.toNat
     ∧ List.Sorted triggeredGe (PostgresGetRecent alerts limit)) := by
  refine ⟨⟨inMemoryGetRecent_nonneg alerts limit h, ?_⟩, ?_, ?_⟩
  · rw [List.length_drop]
    omega
  · unfold PostgresGetRecent
    exact List.length_take_le _ _
  · unfold PostgresGetRecent
    exact List.Pairwise.sublist (List.take_sublist _ _)
      (List.sorted_insertionSort triggeredGe alerts)

/-- Witness for the amended C4 at a concrete store of three alerts and
limit 2. -/
theorem getRecent_limit_and_order_witness :
    (InMemoryGetRecent
        [NewAlert "low" "t" 0 [] 3, NewAlert "low" "t" 0 [] 1,
         NewAlert "low" "t" 0 [] 2] 2
      = some ([NewAlert "low" "t" 0 [] 1, NewAlert "low" "t" 0 [] 2],
          [NewAlert "low" "t" 0 [] 3, NewAlert "low" "t" 0 [] 1,
           NewAlert "low" "t" 0 [] 2])
     ∧ ([NewAlert "low" "t" 0 [] 3, NewAlert "low" "t" 0 [] 1,
         NewAlert "low" "t" 0 [] 2].drop 1).length ≤ 2)
    ∧ ((PostgresGetRecent
        [NewAlert "low" "t" 0 [] 3, NewAlert "low" "t" 0 [] 1,
         NewAlert "low" "t" 0 [] 2] 2).length ≤ 2
     ∧ List.Sorted triggeredGe (PostgresGetRecent
        [NewAlert "low" "t" 0 [] 3, NewAlert "low" "t" 0 [] 1,
         NewAlert "low" "t" 0 [] 2] 2)) :=
  getRecent_limit_and_order
    [NewAlert "low" "t" 0 [] 3, NewAlert "low" "t" 0 [] 1,
     NewAlert "low" "t" 0 [] 2] 2 (by decide)

/-- C10: for every non-negative limit the in-memory `GetRecent` returns
exactly `min(limit, count)` alerts with a nil error and leaves the stored
list unchanged, and for every negative limit the slice lower bound
`len(alerts) - limit` is out of range and the call panics — the
non-negativity precondition is required. -/
theorem inMemoryGetRecent_spec (alerts : List Alert) (limit : Int) :
    (0 ≤ limit →
      InMemoryGetRecent alerts limit
        = some (alerts.drop (alerts.length - limit.toNat), alerts)
      ∧ (alerts.drop (alerts.length - limit.toNat)).length
          = min limit.toNat alerts.length)
    ∧ (limit < 0 → InMemoryGetRecent alerts limit = none) := by
  constructor
  · intro h
    refine ⟨inMemoryGetRecent_nonneg alerts limit h, ?_⟩
    rw [List.length_drop]
    omega
  · intro h
    exact inMemoryGetRecent_neg alerts limit h

/-- Witness for C10: one stored alert, limit 5 returns it unchanged;
limit -1 panics. -/
theorem inMemoryGetRecent_spec_witness :
    (InMemoryGetRecent [sampleAlert] 5 = some ([sampleAlert], [sampleAlert])
     ∧ ([sampleAlert].drop 0).length = min 5 1)
    ∧ InMemoryGetRecent [sampleAlert] (-1) = none :=
  ⟨(inMemoryGetRecent_spec [sampleAlert] 5).1 (by decide),
   (inMemoryGetRecent_spec [sampleAlert] (-1)).2 (by decide)⟩
